import Mathlib

/-!
Verification of the per-entity artificial-lights control core
(`ArtificialLightsNatives.cpp`).

Shallow embedding conventions:

* Raw pointers (`void*`, `fwEntity*`) are modelled as `Nat`, with `0` for the
  null pointer / null sentinel.
* The allow-list `g_entitiesIgnoringBlackout` (an `std::unordered_set<void*>`)
  is modelled as a `Finset Nat`.
* Host memory, used only by `GetParentEntityFromLightEntity` to read the
  `m_parentEntity` field at offset 0xD0, is a total function `Nat → Nat`
  from addresses to stored pointer values.
* The two game globals `g_disableArtificialLights` and
  `g_disableArtificialVehLights` (each a `bool*` that may be null if startup
  pattern discovery failed) together with the boolean cells they point to are
  modelled by `FlagEnv`: a resolved-bit per pointer plus the cell contents.
  The cell contents are only ever read or written by the code under a guard
  that both pointers are non-null.
* Each operation also returns a `List Ev` event trace recording lock
  acquisitions/releases, set accesses, flag-cell accesses, and calls into
  external code (the original host logic and the script-guid resolver).
  Lock scoping follows the C++ RAII scopes.
-/

/-- Events observable during one operation of the core: shared/unique lock
acquisition and release on `g_entitiesMutex`, set accesses on
`g_entitiesIgnoringBlackout`, reads/writes of the two blackout flag cells,
and calls into external code (the original `Lights::AddSceneLight` and the
`fwScriptGuid` resolver in either direction). -/
inductive Ev where
  | acqShared
  | relShared
  | acqUnique
  | relUnique
  | lookup
  | ins
  | del
  | clr
  | readLights
  | readVeh
  | writeLights
  | writeVeh
  | callOrig
  | callResolver
deriving DecidableEq, Repr

/-- The two game globals `g_disableArtificialLights` /
`g_disableArtificialVehLights` and the boolean cells they address.
`lightsResolved` (resp. `vehResolved`) is true iff the corresponding `bool*`
global is non-null; `lights` / `vehLights` are the contents of the two cells. -/
structure FlagEnv where
  lightsResolved : Bool
  vehResolved : Bool
  lights : Bool
  vehLights : Bool
deriving DecidableEq, Repr

/-- The `CLightEntity::m_parentEntity` field offset, `0xD0` in the source. -/
def LIGHT_ENTITY_PARENT_OFFSET : Nat := 0xD0

/-- Translation of `GetParentEntityFromLightEntity`: null in, null out;
otherwise read the `m_parentEntity` pointer at offset 0xD0 inside the
`CLightEntity`. -/
def GetParentEntityFromLightEntity (mem : Nat → Nat) (lightEntity : Nat) : Nat :=
  if lightEntity = 0 then 0
  else mem (lightEntity + LIGHT_ENTITY_PARENT_OFFSET)

/-- Translation of `DoesEntityIgnoreBlackout`, with its event trace: for a null entity it
returns false immediately (no lock, no set access); otherwise it takes the
shared lock, performs one membership lookup, and releases the lock on scope
exit. -/
def DoesEntityIgnoreBlackoutT (s : Finset Nat) (entity : Nat) : Bool × List Ev :=
  if entity = 0 then (false, [])
  else (decide (entity ∈ s), [Ev.acqShared, Ev.lookup, Ev.relShared])

/-- Result component of `DoesEntityIgnoreBlackoutT`. -/
def DoesEntityIgnoreBlackout (s : Finset Nat) (entity : Nat) : Bool :=
  (DoesEntityIgnoreBlackoutT s entity).1

/-- Type of the original host logic `g_origAddSceneLight`, abstracted: it
receives the three original arguments and can observe the flag environment
in force during the call, and produces the boolean result. -/
def OrigFn : Type := Nat → Nat → Bool → FlagEnv → Bool

/-- Translation of `AddSceneLightHook`, with its event trace.  The C++ evaluates
`shouldOverride && g_disableArtificialLights && g_disableArtificialVehLights`
twice (before and after the pass-through call); nothing in between changes any
of the three operands within one invocation, so both evaluations agree and are
modelled by the single `doOverride`.  Returns (result of the original call,
final flag environment, trace). -/
def AddSceneLightHookT (orig : OrigFn) (mem : Nat → Nat) (s : Finset Nat)
    (env : FlagEnv) (sceneLight lightEntity : Nat)
    (addToPreviousLightList : Bool) : Bool × FlagEnv × List Ev :=
  let parentEntity := GetParentEntityFromLightEntity mem lightEntity
  let lookupRes := DoesEntityIgnoreBlackoutT s parentEntity
  let shouldOverride := lookupRes.1
  let doOverride := shouldOverride && env.lightsResolved && env.vehResolved
  let origLightsState := if doOverride then env.lights else false
  let origVehLightsState := if doOverride then env.vehLights else false
  let saveTrace :=
    if doOverride then [Ev.readLights, Ev.readVeh, Ev.writeLights, Ev.writeVeh]
    else []
  let env1 := if doOverride then { env with lights := false, vehLights := false }
              else env
  let result := orig sceneLight lightEntity addToPreviousLightList env1
  let env2 :=
    if doOverride then
      { env1 with lights := origLightsState, vehLights := origVehLightsState }
    else env1
  let restoreTrace := if doOverride then [Ev.writeLights, Ev.writeVeh] else []
  (result, env2, lookupRes.2 ++ saveTrace ++ [Ev.callOrig] ++ restoreTrace)

/-- Allow-list contract operation `Add`: the `g_entitiesIgnoringBlackout.insert`
performed by the setter handler. -/
def AllowList.add (s : Finset Nat) (i : Nat) : Finset Nat := insert i s

/-- Allow-list contract operation `Remove`: the `g_entitiesIgnoringBlackout.erase`
performed by the setter handler. -/
def AllowList.remove (s : Finset Nat) (i : Nat) : Finset Nat := s.erase i

/-- Allow-list contract operation `Contains`: the raw
`find != end` membership test on `g_entitiesIgnoringBlackout`. -/
def AllowList.contains (s : Finset Nat) (i : Nat) : Bool := decide (i ∈ s)

/-- Allow-list contract operation `Clear`: `g_entitiesIgnoringBlackout.clear()`. -/
def AllowList.clear (_ : Finset Nat) : Finset Nat := (∅ : Finset Nat)

/-- Allow-list contract operation `Snapshot`: iteration over
`g_entitiesIgnoringBlackout`.  The container's iteration order is unspecified;
it is modelled by the canonical ascending enumeration. -/
def AllowList.snapshot (s : Finset Nat) : List Nat := s.sort (· ≤ ·)

/-- The `SET_ENTITY_LIGHTS_IGNORE_ARTIFICIAL_STATE` handler with its trace:
resolve the handle via `rage::fwScriptGuid::GetBaseFromGuid` (before any lock);
if the resolver returns null, return without touching the set; otherwise take
the unique lock and insert or erase. -/
def SET_ENTITY_LIGHTS_IGNORE_ARTIFICIAL_STATE_T (getBase : Int → Nat)
    (s : Finset Nat) (entityHandle : Int) (ignoreBlackout : Bool) :
    Finset Nat × List Ev :=
  let entity := getBase entityHandle
  if entity = 0 then (s, [Ev.callResolver])
  else if ignoreBlackout then
    (insert entity s, [Ev.callResolver, Ev.acqUnique, Ev.ins, Ev.relUnique])
  else
    (s.erase entity, [Ev.callResolver, Ev.acqUnique, Ev.del, Ev.relUnique])

/-- The `DOES_ENTITY_LIGHTS_IGNORE_ARTIFICIAL_STATE` handler with its trace:
resolve the handle (before any lock); null resolves to result false; otherwise
delegate to `DoesEntityIgnoreBlackout`. -/
def DOES_ENTITY_LIGHTS_IGNORE_ARTIFICIAL_STATE_T (getBase : Int → Nat)
    (s : Finset Nat) (entityHandle : Int) : Bool × List Ev :=
  let entity := getBase entityHandle
  if entity = 0 then (false, [Ev.callResolver])
  else
    let q := DoesEntityIgnoreBlackoutT s entity
    (q.1, Ev.callResolver :: q.2)

/-- The `CLEAR_ALL_ENTITY_LIGHTS_IGNORE_ARTIFICIAL_STATE` handler: take the
unique lock and clear the set. -/
def CLEAR_ALL_ENTITY_LIGHTS_IGNORE_ARTIFICIAL_STATE_T (_ : Finset Nat) :
    Finset Nat × List Ev :=
  ((∅ : Finset Nat), [Ev.acqUnique, Ev.clr, Ev.relUnique])

/-- The `GET_ALL_ENTITIES_IGNORING_ARTIFICIAL_LIGHTS_STATE` handler with its
trace: under the shared lock, iterate the set, mapping each entity pointer
back to a script guid via `rage::fwScriptGuid::GetGuidFromBase` and keeping
only non-zero handles.  Note the resolver calls happen inside the lock scope,
exactly as in the source. -/
def GET_ALL_ENTITIES_IGNORING_ARTIFICIAL_LIGHTS_STATE_T (getGuid : Nat → Int)
    (s : Finset Nat) : List Int × List Ev :=
  let entityList := (AllowList.snapshot s).filterMap
    (fun entityPtr =>
      let handle := getGuid entityPtr
      if handle ≠ 0 then some handle else none)
  (entityList,
    [Ev.acqShared] ++ (AllowList.snapshot s).map (fun _ => Ev.callResolver)
      ++ [Ev.relShared])

/-- The `OnKillNetworkDone` lifecycle handler: take the unique lock and clear
the set. -/
def OnKillNetworkDoneHandler (_ : Finset Nat) : Finset Nat := (∅ : Finset Nat)

/-- Lock-discipline scanner: walks a trace keeping the current lock depth and
reports `true` iff some call into external code (original host logic or the
guid resolver) happens while a lock is held. -/
def lockAware : Nat → List Ev → Bool
  | _, [] => false
  | d, Ev.acqShared :: tr => lockAware (d + 1) tr
  | d, Ev.acqUnique :: tr => lockAware (d + 1) tr
  | d, Ev.relShared :: tr => lockAware (d - 1) tr
  | d, Ev.relUnique :: tr => lockAware (d - 1) tr
  | d, Ev.callOrig :: tr => if d = 0 then lockAware d tr else true
  | d, Ev.callResolver :: tr => if d = 0 then lockAware d tr else true
  | d, Ev.lookup :: tr => lockAware d tr
  | d, Ev.ins :: tr => lockAware d tr
  | d, Ev.del :: tr => lockAware d tr
  | d, Ev.clr :: tr => lockAware d tr
  | d, Ev.readLights :: tr => lockAware d tr
  | d, Ev.readVeh :: tr => lockAware d tr
  | d, Ev.writeLights :: tr => lockAware d tr
  | d, Ev.writeVeh :: tr => lockAware d tr

/-- `true` iff the trace contains an external call made while holding a lock. -/
def externalCallUnderLock (tr : List Ev) : Bool := lockAware 0 tr

/-- States of the allow-list reachable from the empty startup state by the
control-surface operations (setter, clear-all, session-teardown; the query and
enumeration operations do not mutate the set). -/
inductive ReachableState (getBase : Int → Nat) : Finset Nat → Prop where
  | init : ReachableState getBase (∅ : Finset Nat)
  | stepSet (s : Finset Nat) (h : Int) (t : Bool) :
      ReachableState getBase s →
      ReachableState getBase
        (SET_ENTITY_LIGHTS_IGNORE_ARTIFICIAL_STATE_T getBase s h t).1
  | stepClear (s : Finset Nat) :
      ReachableState getBase s →
      ReachableState getBase
        (CLEAR_ALL_ENTITY_LIGHTS_IGNORE_ARTIFICIAL_STATE_T s).1
  | stepTeardown (s : Finset Nat) :
      ReachableState getBase s →
      ReachableState getBase (OnKillNetworkDoneHandler s)

/-- Claim C6: for every identity i, Add(i) then Contains(i) returns true, and
Remove(i) then Contains(i) returns false, regardless of prior set contents. -/
theorem c6_add_remove_then_contains (s : Finset Nat) (i : Nat) :
    AllowList.contains (AllowList.add s i) i = true ∧
    AllowList.contains (AllowList.remove s i) i = false := by
  constructor
  · simp [AllowList.contains, AllowList.add]
  · simp [AllowList.contains, AllowList.remove]

/-- Claim C7: after the explicit clear-all handler or the session-teardown
handler, Contains is false for every identity and the snapshot is empty; in
particular Add(a); Add(b); teardown leaves an empty snapshot. -/
theorem c7_clear_and_teardown_empty (s : Finset Nat) (i a b : Nat) :
    AllowList.contains (CLEAR_ALL_ENTITY_LIGHTS_IGNORE_ARTIFICIAL_STATE_T s).1 i = false ∧
    AllowList.snapshot (CLEAR_ALL_ENTITY_LIGHTS_IGNORE_ARTIFICIAL_STATE_T s).1 = [] ∧
    AllowList.contains (OnKillNetworkDoneHandler s) i = false ∧
    AllowList.snapshot (OnKillNetworkDoneHandler (AllowList.add (AllowList.add s a) b)) = [] := by
  refine ⟨?_, ?_, ?_, ?_⟩ <;>
    simp [AllowList.contains, AllowList.snapshot,
      CLEAR_ALL_ENTITY_LIGHTS_IGNORE_ARTIFICIAL_STATE_T, OnKillNetworkDoneHandler]

/-- Claim C8: a null lightEntityHandle derives the null identity, and the
membership query on the null identity returns false with an empty event
trace — no lock acquisition and no set lookup. -/
theorem c8_null_identity_short_circuit (mem : Nat → Nat) (s : Finset Nat) :
    GetParentEntityFromLightEntity mem 0 = 0 ∧
    DoesEntityIgnoreBlackoutT s 0 = (false, []) ∧
    DoesEntityIgnoreBlackout s 0 = false := by
  refine ⟨?_, ?_, ?_⟩ <;>
    simp [GetParentEntityFromLightEntity, DoesEntityIgnoreBlackoutT,
      DoesEntityIgnoreBlackout]

/-- Claim C1: on an allow-listed (member) identity with both flag cell
addresses resolved, the shim saves both cells, writes false to both, invokes
the original logic (which therefore observes both flags false), restores both
cells to their saved pre-call values, and returns the original's result; the
trace is exactly lock-bracketed lookup, save reads, override writes, the
original call, and the restoring writes. -/
theorem c1_member_saves_overrides_restores (orig : OrigFn) (mem : Nat → Nat)
    (s : Finset Nat) (env : FlagEnv) (sceneLight lightEntity : Nat)
    (addToPreviousLightList : Bool)
    (hne : GetParentEntityFromLightEntity mem lightEntity ≠ 0)
    (hmem : GetParentEntityFromLightEntity mem lightEntity ∈ s)
    (hl : env.lightsResolved = true) (hv : env.vehResolved = true) :
    AddSceneLightHookT orig mem s env sceneLight lightEntity addToPreviousLightList =
      (orig sceneLight lightEntity addToPreviousLightList
         { env with lights := false, vehLights := false },
       env,
       [Ev.acqShared, Ev.lookup, Ev.relShared,
        Ev.readLights, Ev.readVeh, Ev.writeLights, Ev.writeVeh,
        Ev.callOrig, Ev.writeLights, Ev.writeVeh]) := by
  rcases env with ⟨lr, vr, l, v⟩
  simp only at hl hv
  subst hl; subst hv
  simp [AddSceneLightHookT, DoesEntityIgnoreBlackoutT, hne, hmem]

/-- Witness for C1 at a concrete input: entity 5 is allow-listed, the flags
start (true, true), the mocked original records whether it observed
(false, false), and after the shim returns the flags are (true, true) again. -/
theorem c1_witness :
    (AddSceneLightHookT (fun _ _ _ e => decide (e.lights = false ∧ e.vehLights = false))
        (fun _ => 5) ({5} : Finset Nat) ⟨true, true, true, true⟩ 1 8 true).1 = true ∧
    (AddSceneLightHookT (fun _ _ _ e => decide (e.lights = false ∧ e.vehLights = false))
        (fun _ => 5) ({5} : Finset Nat) ⟨true, true, true, true⟩ 1 8 true).2.1
      = ⟨true, true, true, true⟩ := by
  have h := c1_member_saves_overrides_restores
    (fun _ _ _ e => decide (e.lights = false ∧ e.vehLights = false))
    (fun _ => 5) ({5} : Finset Nat) ⟨true, true, true, true⟩ 1 8 true
    (by decide) (by decide) rfl rfl
  constructor
  · rw [show (AddSceneLightHookT (fun _ _ _ e => decide (e.lights = false ∧ e.vehLights = false))
        (fun _ => 5) ({5} : Finset Nat) ⟨true, true, true, true⟩ 1 8 true).1
      = _ from congrArg Prod.fst h]
    decide
  · rw [show (AddSceneLightHookT (fun _ _ _ e => decide (e.lights = false ∧ e.vehLights = false))
        (fun _ => 5) ({5} : Finset Nat) ⟨true, true, true, true⟩ 1 8 true).2
      = _ from congrArg Prod.snd h]

/-- Claim C2: on an identity not in the allow-list (the null identity
included), the shim writes neither flag cell: the original logic receives the
flag environment unchanged, the environment after the shim equals the one
before, and the trace contains no flag-cell write. -/
theorem c2_nonmember_no_flag_writes (orig : OrigFn) (mem : Nat → Nat)
    (s : Finset Nat) (env : FlagEnv) (sceneLight lightEntity : Nat)
    (addToPreviousLightList : Bool)
    (hnm : GetParentEntityFromLightEntity mem lightEntity ∉ s) :
    (AddSceneLightHookT orig mem s env sceneLight lightEntity addToPreviousLightList).1
      = orig sceneLight lightEntity addToPreviousLightList env ∧
    (AddSceneLightHookT orig mem s env sceneLight lightEntity addToPreviousLightList).2.1
      = env ∧
    Ev.writeLights ∉
      (AddSceneLightHookT orig mem s env sceneLight lightEntity addToPreviousLightList).2.2 ∧
    Ev.writeVeh ∉
      (AddSceneLightHookT orig mem s env sceneLight lightEntity addToPreviousLightList).2.2 := by
  by_cases hp : GetParentEntityFromLightEntity mem lightEntity = 0
  · refine ⟨?_, ?_, ?_, ?_⟩ <;>
      simp [AddSceneLightHookT, DoesEntityIgnoreBlackoutT, hp]
  · refine ⟨?_, ?_, ?_, ?_⟩ <;>
      simp [AddSceneLightHookT, DoesEntityIgnoreBlackoutT, hp, hnm]

/-- Witness for C2 at a concrete input: the derived identity 3 is not in the
allow-list {7}, the flags start (true, true), the mocked original records that
it observed (true, true), and the flags after equal the flags before. -/
theorem c2_witness :
    (AddSceneLightHookT (fun _ _ _ e => e.lights && e.vehLights)
        (fun _ => 3) ({7} : Finset Nat) ⟨true, true, true, true⟩ 1 8 true).1 = true ∧
    (AddSceneLightHookT (fun _ _ _ e => e.lights && e.vehLights)
        (fun _ => 3) ({7} : Finset Nat) ⟨true, true, true, true⟩ 1 8 true).2.1
      = ⟨true, true, true, true⟩ := by
  have h := c2_nonmember_no_flag_writes (fun _ _ _ e => e.lights && e.vehLights)
    (fun _ => 3) ({7} : Finset Nat) ⟨true, true, true, true⟩ 1 8 true (by decide)
  exact ⟨by rw [h.1]; decide, h.2.1⟩

/-- Claim C4: when either flag pointer was never resolved, the shim is a pure
pass-through: it performs no flag-cell read or write (so no null dereference),
leaves the flag environment unchanged, and still invokes the original logic
with the original three arguments and returns its result. -/
theorem c4_unresolved_pointers_pure_passthrough (orig : OrigFn) (mem : Nat → Nat)
    (s : Finset Nat) (env : FlagEnv) (sceneLight lightEntity : Nat)
    (addToPreviousLightList : Bool)
    (hun : env.lightsResolved = false ∨ env.vehResolved = false) :
    (AddSceneLightHookT orig mem s env sceneLight lightEntity addToPreviousLightList).1
      = orig sceneLight lightEntity addToPreviousLightList env ∧
    (AddSceneLightHookT orig mem s env sceneLight lightEntity addToPreviousLightList).2.1
      = env ∧
    Ev.readLights ∉
      (AddSceneLightHookT orig mem s env sceneLight lightEntity addToPreviousLightList).2.2 ∧
    Ev.readVeh ∉
      (AddSceneLightHookT orig mem s env sceneLight lightEntity addToPreviousLightList).2.2 ∧
    Ev.writeLights ∉
      (AddSceneLightHookT orig mem s env sceneLight lightEntity addToPreviousLightList).2.2 ∧
    Ev.writeVeh ∉
      (AddSceneLightHookT orig mem s env sceneLight lightEntity addToPreviousLightList).2.2 ∧
    Ev.callOrig ∈
      (AddSceneLightHookT orig mem s env sceneLight lightEntity addToPreviousLightList).2.2 := by
  have hdo : ∀ b : Bool, (b && env.lightsResolved && env.vehResolved) = false := by
    intro b; rcases hun with h | h <;> simp [h]
  by_cases hp : GetParentEntityFromLightEntity mem lightEntity = 0 <;>
    refine ⟨?_, ?_, ?_, ?_, ?_, ?_, ?_⟩ <;>
    simp [AddSceneLightHookT, DoesEntityIgnoreBlackoutT, hp, hdo]

/-- Witness for C4 at a concrete input: entity 5 is allow-listed but the first
flag pointer is unresolved; the mocked original still runs, observes the
untouched flag value true, and the environment is unchanged after the shim. -/
theorem c4_witness :
    (AddSceneLightHookT (fun _ _ _ e => e.lights) (fun _ => 5) ({5} : Finset Nat)
        ⟨false, true, true, true⟩ 1 8 true).1 = true ∧
    (AddSceneLightHookT (fun _ _ _ e => e.lights) (fun _ => 5) ({5} : Finset Nat)
        ⟨false, true, true, true⟩ 1 8 true).2.1 = ⟨false, true, true, true⟩ ∧
    Ev.callOrig ∈
      (AddSceneLightHookT (fun _ _ _ e => e.lights) (fun _ => 5) ({5} : Finset Nat)
        ⟨false, true, true, true⟩ 1 8 true).2.2 := by
  have h := c4_unresolved_pointers_pure_passthrough (fun _ _ _ e => e.lights)
    (fun _ => 5) ({5} : Finset Nat) ⟨false, true, true, true⟩ 1 8 true (Or.inl rfl)
  exact ⟨by rw [h.1], h.2.1, h.2.2.2.2.2.2⟩

/-- Claim C5: a handle the resolver maps to the null sentinel produces the
default responses: the setter leaves the set unchanged for either toggle
value, the query returns false, and the enumeration output contains only
non-zero handles of live set members (dead identities are silently omitted)
while every live member's handle does appear. -/
theorem c5_invalid_handle_defaults (getBase : Int → Nat) (getGuid : Nat → Int)
    (s : Finset Nat) (entityHandle : Int) (toggle : Bool)
    (hnull : getBase entityHandle = 0) :
    (SET_ENTITY_LIGHTS_IGNORE_ARTIFICIAL_STATE_T getBase s entityHandle toggle).1 = s ∧
    (DOES_ENTITY_LIGHTS_IGNORE_ARTIFICIAL_STATE_T getBase s entityHandle).1 = false ∧
    (∀ x ∈ (GET_ALL_ENTITIES_IGNORING_ARTIFICIAL_LIGHTS_STATE_T getGuid s).1,
        x ≠ 0 ∧ ∃ e ∈ s, getGuid e = x) ∧
    (∀ e ∈ s, getGuid e ≠ 0 →
        getGuid e ∈ (GET_ALL_ENTITIES_IGNORING_ARTIFICIAL_LIGHTS_STATE_T getGuid s).1) := by
  refine ⟨?_, ?_, ?_, ?_⟩
  · simp [SET_ENTITY_LIGHTS_IGNORE_ARTIFICIAL_STATE_T, hnull]
  · simp [DOES_ENTITY_LIGHTS_IGNORE_ARTIFICIAL_STATE_T, hnull]
  · intro x hx
    simp only [GET_ALL_ENTITIES_IGNORING_ARTIFICIAL_LIGHTS_STATE_T, AllowList.snapshot,
      List.mem_filterMap, Finset.mem_sort] at hx
    obtain ⟨e, he, hfe⟩ := hx
    by_cases hg : getGuid e = 0
    · simp [hg] at hfe
    · simp only [ne_eq, hg, not_false_eq_true, if_true, Option.some.injEq] at hfe
      exact ⟨hfe ▸ hg, e, he, hfe⟩
  · intro e he hg
    simp only [GET_ALL_ENTITIES_IGNORING_ARTIFICIAL_LIGHTS_STATE_T, AllowList.snapshot,
      List.mem_filterMap, Finset.mem_sort]
    exact ⟨e, he, by simp [hg]⟩

/-- Witness for C5 at a concrete input: the resolver maps every handle to the
null sentinel, so the setter leaves {1, 2} unchanged and the query returns
false; in the enumeration with inverse resolver mapping 1 to handle 7 and
everything else to 0, the live member's handle 7 appears. -/
theorem c5_witness :
    (SET_ENTITY_LIGHTS_IGNORE_ARTIFICIAL_STATE_T (fun _ => 0) ({1, 2} : Finset Nat)
        5 true).1 = ({1, 2} : Finset Nat) ∧
    (DOES_ENTITY_LIGHTS_IGNORE_ARTIFICIAL_STATE_T (fun _ => 0) ({1, 2} : Finset Nat)
        5).1 = false ∧
    (7 : Int) ∈ (GET_ALL_ENTITIES_IGNORING_ARTIFICIAL_LIGHTS_STATE_T
        (fun e => if e = 1 then 7 else 0) ({1, 2} : Finset Nat)).1 := by
  have h := c5_invalid_handle_defaults (fun _ => 0) (fun e => if e = 1 then 7 else 0)
    ({1, 2} : Finset Nat) 5 true rfl
  refine ⟨h.1, h.2.1, ?_⟩
  have h4 := h.2.2.2 1 (by decide) (by decide)
  simpa using h4

/-- Claim C9: starting from the empty set, no sequence of control-surface
operations can ever make the null identity a member: the setter returns
before mutating the set whenever the resolver yields null, so every reachable
allow-list state excludes 0. -/
theorem c9_null_identity_never_member (getBase : Int → Nat) (s : Finset Nat)
    (hr : ReachableState getBase s) : 0 ∉ s := by
  induction hr with
  | init => exact Finset.not_mem_empty 0
  | stepSet s h t hprev ih =>
      by_cases hz : getBase h = 0
      · simpa [SET_ENTITY_LIGHTS_IGNORE_ARTIFICIAL_STATE_T, hz] using ih
      · cases t
        · intro hmem
          simp [SET_ENTITY_LIGHTS_IGNORE_ARTIFICIAL_STATE_T, hz] at hmem
          exact ih hmem.2
        · intro hmem
          simp [SET_ENTITY_LIGHTS_IGNORE_ARTIFICIAL_STATE_T, hz] at hmem
          rcases hmem with h0 | h0
          · exact hz h0.symm
          · exact ih h0
  | stepClear s hprev ih =>
      simp [CLEAR_ALL_ENTITY_LIGHTS_IGNORE_ARTIFICIAL_STATE_T]
  | stepTeardown s hprev ih =>
      simp [OnKillNetworkDoneHandler]

/-- Witness for C9 at a concrete reachable state: after one setter call that
inserts identity 5, the null identity is not a member. -/
theorem c9_witness :
    0 ∉ (SET_ENTITY_LIGHTS_IGNORE_ARTIFICIAL_STATE_T (fun _ => 5)
          (∅ : Finset Nat) 1 true).1 :=
  c9_null_identity_never_member (fun _ => 5) _
    (ReachableState.stepSet (∅ : Finset Nat) 1 true ReachableState.init)

/-- Claim C10: every shim invocation leaves the allow-list untouched: its
trace contains no insert, erase, clear, or unique-lock acquisition, and at
most one membership lookup. -/
theorem c10_shim_never_mutates_allowlist (orig : OrigFn) (mem : Nat → Nat)
    (s : Finset Nat) (env : FlagEnv) (sceneLight lightEntity : Nat)
    (addToPreviousLightList : Bool) :
    Ev.ins ∉
      (AddSceneLightHookT orig mem s env sceneLight lightEntity addToPreviousLightList).2.2 ∧
    Ev.del ∉
      (AddSceneLightHookT orig mem s env sceneLight lightEntity addToPreviousLightList).2.2 ∧
    Ev.clr ∉
      (AddSceneLightHookT orig mem s env sceneLight lightEntity addToPreviousLightList).2.2 ∧
    Ev.acqUnique ∉
      (AddSceneLightHookT orig mem s env sceneLight lightEntity addToPreviousLightList).2.2 ∧
    ((AddSceneLightHookT orig mem s env sceneLight lightEntity
        addToPreviousLightList).2.2).count Ev.lookup ≤ 1 := by
  rcases env with ⟨lr, vr, l, v⟩
  by_cases hp : GetParentEntityFromLightEntity mem lightEntity = 0
  · cases lr <;> cases vr <;>
      refine ⟨?_, ?_, ?_, ?_, ?_⟩ <;>
      simp [AddSceneLightHookT, DoesEntityIgnoreBlackoutT, hp, List.count_cons]
  · by_cases hm : GetParentEntityFromLightEntity mem lightEntity ∈ s <;>
      cases lr <;> cases vr <;>
      refine ⟨?_, ?_, ?_, ?_, ?_⟩ <;>
      simp [AddSceneLightHookT, DoesEntityIgnoreBlackoutT, hp, hm, List.count_cons]

/-- Helper for the lock-discipline analysis: scanning resolver calls at a
positive lock depth reports an external call under the lock as soon as the
list of calls is non-empty. -/
lemma lockAware_resolver_calls_pos_depth (l : List Nat) (hl : l ≠ []) :
    lockAware 1 (l.map (fun _ => Ev.callResolver) ++ [Ev.relShared]) = true := by
  cases l with
  | nil => exact absurd rfl hl
  | cons x xs => simp [lockAware]

/-- Counterexample to claim C3 as stated: with one identity (address 1) in
the allow-list and the inverse resolver returning handle 1, the enumeration
handler's trace contains a resolver call made while the shared lock is held. -/
theorem c3_counterexample :
    externalCallUnderLock
      (GET_ALL_ENTITIES_IGNORING_ARTIFICIAL_LIGHTS_STATE_T (fun _ => 1)
        ({1} : Finset Nat)).2 = true := by
  have hs : AllowList.snapshot ({1} : Finset Nat) = [1] := by
    simp [AllowList.snapshot]
  simp [GET_ALL_ENTITIES_IGNORING_ARTIFICIAL_LIGHTS_STATE_T, hs,
    externalCallUnderLock, lockAware]

/-- Amended claim C3: the shim acquires the read lock only for the membership
check and releases it before invoking the original host logic; the setter and
the membership query call the handle resolver before acquiring any lock; the
enumeration handler, however, performs its inverse-resolver calls while
holding the shared lock whenever the set is non-empty. -/
theorem c3_lock_discipline (orig : OrigFn) (mem : Nat → Nat)
    (s s' : Finset Nat) (env : FlagEnv) (sceneLight lightEntity : Nat)
    (addToPreviousLightList : Bool) (getBase : Int → Nat) (getGuid : Nat → Int)
    (entityHandle : Int) (toggle : Bool) :
    externalCallUnderLock
      (AddSceneLightHookT orig mem s env sceneLight lightEntity
        addToPreviousLightList).2.2 = false ∧
    externalCallUnderLock
      (SET_ENTITY_LIGHTS_IGNORE_ARTIFICIAL_STATE_T getBase s entityHandle
        toggle).2 = false ∧
    externalCallUnderLock
      (DOES_ENTITY_LIGHTS_IGNORE_ARTIFICIAL_STATE_T getBase s entityHandle).2
      = false ∧
    (s'.Nonempty →
      externalCallUnderLock
        (GET_ALL_ENTITIES_IGNORING_ARTIFICIAL_LIGHTS_STATE_T getGuid s').2
        = true) := by
  refine ⟨?_, ?_, ?_, ?_⟩
  · rcases env with ⟨lr, vr, l, v⟩
    by_cases hp : GetParentEntityFromLightEntity mem lightEntity = 0
    · cases lr <;> cases vr <;>
        simp [AddSceneLightHookT, DoesEntityIgnoreBlackoutT, hp,
          externalCallUnderLock, lockAware]
    · by_cases hm : GetParentEntityFromLightEntity mem lightEntity ∈ s <;>
        cases lr <;> cases vr <;>
        simp [AddSceneLightHookT, DoesEntityIgnoreBlackoutT, hp, hm,
          externalCallUnderLock, lockAware]
  · by_cases hz : getBase entityHandle = 0
    · simp [SET_ENTITY_LIGHTS_IGNORE_ARTIFICIAL_STATE_T, hz,
        externalCallUnderLock, lockAware]
    · cases toggle <;>
        simp [SET_ENTITY_LIGHTS_IGNORE_ARTIFICIAL_STATE_T, hz,
          externalCallUnderLock, lockAware]
  · by_cases hz : getBase entityHandle = 0 <;>
      simp [DOES_ENTITY_LIGHTS_IGNORE_ARTIFICIAL_STATE_T, DoesEntityIgnoreBlackoutT,
        hz, externalCallUnderLock, lockAware]
  · intro hne
    have hlen : AllowList.snapshot s' ≠ [] := by
      have hcard : s'.card ≠ 0 := Finset.card_ne_zero_of_mem hne.choose_spec
      intro hnil
      have := Finset.length_sort (α := Nat) (· ≤ ·) (s := s')
      rw [AllowList.snapshot] at hnil
      rw [hnil] at this
      exact hcard this.symm
    simp only [GET_ALL_ENTITIES_IGNORING_ARTIFICIAL_LIGHTS_STATE_T,
      externalCallUnderLock, List.cons_append, lockAware]
    exact lockAware_resolver_calls_pos_depth (AllowList.snapshot s') hlen

/-- Witness for the amended claim C3 at concrete inputs: no external call
under a lock in the shim, setter, and query traces, and a resolver call under
the shared lock in the enumeration trace over the non-empty set {2}. -/
theorem c3_witness :
    externalCallUnderLock
      (AddSceneLightHookT (fun _ _ _ _ => true) (fun _ => 0) (∅ : Finset Nat)
        ⟨true, true, true, true⟩ 1 2 true).2.2 = false ∧
    externalCallUnderLock
      (SET_ENTITY_LIGHTS_IGNORE_ARTIFICIAL_STATE_T (fun _ => 4) (∅ : Finset Nat)
        1 true).2 = false ∧
    externalCallUnderLock
      (DOES_ENTITY_LIGHTS_IGNORE_ARTIFICIAL_STATE_T (fun _ => 4) (∅ : Finset Nat)
        1).2 = false ∧
    externalCallUnderLock
      (GET_ALL_ENTITIES_IGNORING_ARTIFICIAL_LIGHTS_STATE_T (fun _ => 9)
        ({2} : Finset Nat)).2 = true := by
  have h := c3_lock_discipline (fun _ _ _ _ => true) (fun _ => 0)
    (∅ : Finset Nat) ({2} : Finset Nat) ⟨true, true, true, true⟩ 1 2 true
    (fun _ => 4) (fun _ => 9) 1 true
  exact ⟨h.1, h.2.1, h.2.2.1, h.2.2.2 ⟨2, by decide⟩⟩
